import Mathlib

/-!
Shallow embedding of the lead-validation core of `fraud_scorer_sample.py`
(class `SimpleFraudScorer` and its batch aggregation), together with
theorems settling the specification claims about it.

Modelling conventions:
* A lead record's fields are the raw string values; a missing field is
  represented by the empty string, matching `lead.get(key, '')` and the
  fact that for strings Python's `not x` is exactly `x == ''`.
* Python string primitives (`strip`, `lower`, `split`, `' '.join`,
  substring `in`) are re-implemented structurally over `List Char` so
  that every definition is executable by kernel reduction.
* The MD5 hash used for duplicate fingerprints is modelled as an
  injective hash, i.e. the identity on fingerprint strings: the scorer
  only ever stores hashes in a set and tests membership, so under the
  (intended) collision-freedom of the hash this is observationally the
  same program.
* Python floats in the batch aggregation are modelled as exact rationals
  (`ℚ`); Python's `/` operator, which raises `ZeroDivisionError` on a
  zero denominator, is modelled by `pyDivQ` returning `Except`.
-/

namespace LeadValidation

/-- A lead record.  Fields are raw strings; `""` encodes a missing field
(`lead.get('name', '')` etc. in the source). -/
structure Lead where
  name : String
  email : String
  phone : String
  deriving DecidableEq, Inhabited

/-- Python `pat in s` on strings: `pat` occurs as a contiguous substring. -/
def hasSubChars (pat : List Char) : List Char → Bool
  | [] => pat.isPrefixOf []
  | c :: rest => pat.isPrefixOf (c :: rest) || hasSubChars pat rest

/-- Python `pat in s` lifted to `String`. -/
def pyContains (s pat : String) : Bool :=
  hasSubChars pat.data s.data

/-- Python `' '.join(reasons)`. -/
def joinSpace : List String → String
  | [] => ""
  | [s] => s
  | s :: rest => s ++ " " ++ joinSpace rest

/-- Python `s.lower()` (ASCII case folding, which covers all data the
scorer compares case-insensitively). -/
def pyLower (s : String) : String :=
  ⟨s.data.map Char.toLower⟩

/-- Python `s.strip()`: drop leading and trailing whitespace. -/
def pyStrip (s : String) : String :=
  ⟨((s.data.dropWhile Char.isWhitespace).reverse.dropWhile Char.isWhitespace).reverse⟩

/-- Python `s.split('@')[-1]`: everything after the last `'@'`, or the
whole string when there is no `'@'`. -/
def afterLastAt (s : String) : String :=
  ⟨(s.data.reverse.takeWhile (fun c => c ≠ '@')).reverse⟩

/-- The digit characters of a string, as in `re.sub(r'\D', '', phone)`. -/
def digitsOf (s : String) : List Char :=
  s.data.filter Char.isDigit

/-- `SimpleFraudScorer.disposable_domains` (lines 36-42). -/
def disposable_domains : List String :=
  ["guerrillamail.com", "temp-mail.org", "10minutemail.com",
   "mailinator.com", "throwaway.email", "tempmail.com",
   "getnada.com", "maildrop.cc", "yopmail.com", "fakeinbox.com",
   "emailondeck.com", "throwawaymail.com", "trashmail.com",
   "sharklasers.com", "spam4.me", "tempr.email"]

/-- `SimpleFraudScorer.gibberish_patterns` (lines 44-47). -/
def gibberish_patterns : List String :=
  ["asdfgh", "qwerty", "zxcvbn", "test test", "test",
   "fake", "xxx", "aaa", "zzz", "nnn", "111", "123", "abc"]

/-- `SimpleFraudScorer.validate_phone_format` (lines 53-65): false on
empty input; otherwise strip non-digits and accept exactly 10 or 11
digits. -/
def validate_phone_format (phone : String) : Bool :=
  if phone = "" then false
  else
    let digits := digitsOf phone
    if digits.length = 10 ∨ digits.length = 11 then true
    else false

/-- Character class `[a-zA-Z0-9._%+-]` (the local part of the email
regex). -/
def emailLocalChar (c : Char) : Bool :=
  c.isAlpha || c.isDigit || c = '.' || c = '_' || c = '%' || c = '+' || c = '-'

/-- Character class `[a-zA-Z0-9.-]` (the domain part of the email
regex). -/
def emailDomainChar (c : Char) : Bool :=
  c.isAlpha || c.isDigit || c = '.' || c = '-'

/-- Matcher for the anchored regex
`^[a-zA-Z0-9._%+-]+@[a-zA-Z0-9.-]+\.[a-zA-Z]{2,}$` on a character list.
Since `'@'` belongs to none of the character classes, a match is exactly
a decomposition `local ++ '@' ++ domain ++ '.' ++ tld` where `local` is
nonempty over the local class, `domain` is nonempty over the domain
class, the split dot is the last dot, and `tld` is 2+ letters. -/
def emailRegexMatch (cs : List Char) : Bool :=
  match cs.splitOn '@' with
  | [localPart, rest] =>
    localPart ≠ [] && localPart.all emailLocalChar &&
    (let domainPart := (rest.reverse.dropWhile (fun c => c ≠ '.')).drop 1 |>.reverse
     let tld := rest.reverse.takeWhile (fun c => c ≠ '.') |>.reverse
     (rest.reverse.dropWhile (fun c => c ≠ '.')) ≠ [] &&
     domainPart ≠ [] && domainPart.all emailDomainChar &&
     tld.length ≥ 2 && tld.all Char.isAlpha)
  | _ => false

/-- `SimpleFraudScorer.validate_email_format` (lines 67-74): false on
empty input; otherwise `re.match` of the anchored pattern.  Python's `$`
also matches just before one trailing newline, so a single trailing
`'\n'` is stripped before the core match. -/
def validate_email_format (email : String) : Bool :=
  if email = "" then false
  else
    let cs := if email.data.getLast? = some '\n' then email.data.dropLast else email.data
    emailRegexMatch cs

/-- `SimpleFraudScorer.is_disposable_email` (lines 76-82): false on empty
input; otherwise membership of the lower-cased part after the last `'@'`
in the disposable-domain set. -/
def is_disposable_email (email : String) : Bool :=
  if email = "" then false
  else disposable_domains.contains (pyLower (afterLastAt email))

/-- `SimpleFraudScorer.is_gibberish_name` (lines 84-103): true on empty
input; else true iff the lower-cased trimmed form is a known gibberish
pattern, has length ≤ 1, or contains a digit. -/
def is_gibberish_name (name : String) : Bool :=
  if name = "" then true
  else
    let name_lower := pyStrip (pyLower name)
    if gibberish_patterns.contains name_lower then true
    else if name_lower.data.length ≤ 1 then true
    else if name_lower.data.any Char.isDigit then true
    else false

/-- The batch-scoped Repetition Tracker state held by a
`SimpleFraudScorer` instance (lines 49-51): `seen_phones` and
`seen_emails` are the `defaultdict(int)` counters, `seen_hashes` the set
of duplicate fingerprints (as a list of recorded fingerprint strings,
each recorded at most once). -/
structure Tracker where
  seen_phones : String → Nat
  seen_emails : String → Nat
  seen_hashes : List String

/-- A freshly constructed scorer: empty counters, empty fingerprint
set. -/
def Tracker.init : Tracker :=
  { seen_phones := fun _ => 0, seen_emails := fun _ => 0, seen_hashes := [] }

/-- The duplicate fingerprint of a lead: the literal concatenation
`name|email|phone` (line 107).  The MD5 hash of it is modelled as the
fingerprint string itself (injective hash). -/
def fingerprint (lead : Lead) : String :=
  lead.name ++ "|" ++ lead.email ++ "|" ++ lead.phone

/-- `SimpleFraudScorer.find_exact_duplicate` (lines 105-114): returns
true iff the lead's fingerprint hash was already recorded; otherwise
records it.  (In the source the hash is `add`ed to a set after the
membership test; adding an already-present element to a set is a no-op,
so recording only new fingerprints is the same state.) -/
def find_exact_duplicate (lead : Lead) (t : Tracker) : Bool × Tracker :=
  let lead_hash := fingerprint lead
  if t.seen_hashes.contains lead_hash then (true, t)
  else (false, { t with seen_hashes := lead_hash :: t.seen_hashes })

/-- `SimpleFraudScorer.check_repeated_contact` (lines 116-127): first
increments the phone and email counters for this lead's (string-cast)
values, then reports whether each counter has reached 3. -/
def check_repeated_contact (lead : Lead) (t : Tracker) : (Bool × Bool) × Tracker :=
  let phone := lead.phone
  let email := lead.email
  let phones := fun k => if k = phone then t.seen_phones k + 1 else t.seen_phones k
  let emails := fun k => if k = email then t.seen_emails k + 1 else t.seen_emails k
  let repeated_phone := decide (3 ≤ phones phone)
  let repeated_email := decide (3 ≤ emails email)
  ((repeated_phone, repeated_email),
   { t with seen_phones := phones, seen_emails := emails })

/-- A Score Result (the dict returned by `score_lead`, lines 228-234).
The `geographic` and `timing` breakdown categories are initialised and
never awarded to (lines 141-142); they are kept for fidelity. -/
structure ScoreResult where
  fraud_score : Nat
  classification : String
  is_fraudulent : Bool
  reasons : List String
  breakdown_contact : Nat
  breakdown_duplicate : Nat
  breakdown_geographic : Nat
  breakdown_timing : Nat
  breakdown_quality : Nat
  deriving DecidableEq, Inhabited

/-- The state of `score_lead` just before the "missing critical fields"
check (source lines 136-204): the running uncapped score, the reasons
collected so far, the capped contact and duplicate breakdowns, the
quality breakdown after the gibberish-name award, and the threaded
tracker. -/
structure PreMissing where
  score : Nat
  reasons : List String
  contact : Nat
  duplicate : Nat
  quality : Nat
  tracker : Tracker

/-- Lines 136-204 of `score_lead`: contact validation (phone, email,
repeated contacts; contact breakdown capped at 40), duplicate detection
(duplicate breakdown capped at 25), and the gibberish-name quality
award.  Stops just before the "missing critical fields" check. -/
def score_lead_preMissing (lead : Lead) (t : Tracker) : PreMissing :=
  let phone := lead.phone
  let score1 : Nat := if phone = "" then 10 else if !validate_phone_format phone then 10 else 0
  let contact1 : Nat := score1
  let reasons1 : List String :=
    if phone = "" then ["Missing phone number"]
    else if !validate_phone_format phone then ["Invalid phone format"] else []
  let email := lead.email
  let score2 :=
    if email = "" then score1 + 10
    else if !validate_email_format email then score1 + 10
    else if is_disposable_email email then score1 + 10
    else score1
  let contact2 :=
    if email = "" then contact1 + 10
    else if !validate_email_format email then contact1 + 10
    else if is_disposable_email email then contact1 + 10
    else contact1
  let reasons2 :=
    if email = "" then reasons1 ++ ["Missing email address"]
    else if !validate_email_format email then reasons1 ++ ["Invalid email format"]
    else if is_disposable_email email then reasons1 ++ ["Disposable email domain"]
    else reasons1
  let rc := check_repeated_contact lead t
  let repeated_phone := rc.1.1
  let repeated_email := rc.1.2
  let t1 := rc.2
  let score3 := if repeated_phone then score2 + 10 else score2
  let contact3 := if repeated_phone then contact2 + 10 else contact2
  let reasons3 := if repeated_phone then reasons2 ++ ["Phone number repeated 3+ times"] else reasons2
  let score4 := if repeated_email then score3 + 10 else score3
  let contact4 := if repeated_email then contact3 + 10 else contact3
  let reasons4 := if repeated_email then reasons3 ++ ["Email repeated 3+ times"] else reasons3
  let contact := min contact4 40
  let fd := find_exact_duplicate lead t1
  let isDup := fd.1
  let t2 := fd.2
  let score5 := if isDup then score4 + 15 else score4
  let dup1 := if isDup then 15 else 0
  let reasons5 := if isDup then reasons4 ++ ["Exact duplicate detected"] else reasons4
  let duplicate := min dup1 25
  let name := lead.name
  let score6 := if name = "" ∨ is_gibberish_name name then score5 + 10 else score5
  let qual1 : Nat := if name = "" ∨ is_gibberish_name name then 10 else 0
  let reasons6 := if name = "" ∨ is_gibberish_name name then reasons5 ++ ["Invalid or gibberish name"] else reasons5
  { score := score6, reasons := reasons6, contact := contact,
    duplicate := duplicate, quality := qual1, tracker := t2 }

/-- `SimpleFraudScorer.score_lead` (lines 129-234): the pre-missing
state, then the "missing critical fields" award (made only when a
critical field is missing and no reason collected so far contains the
substring `"Missing"`, lines 206-211), the quality cap, and the
classification of the uncapped total (lines 216-226). -/
def score_lead (lead : Lead) (t : Tracker) : ScoreResult × Tracker :=
  let pre := score_lead_preMissing lead t
  let award :=
    (lead.name = "" ∨ lead.email = "" ∨ lead.phone = "") ∧
      pyContains (joinSpace pre.reasons) "Missing" = false
  let score7 := if award then pre.score + 10 else pre.score
  let qual2 := if award then pre.quality + 10 else pre.quality
  let reasons7 := if award then pre.reasons ++ ["Missing critical fields"] else pre.reasons
  let quality := min qual2 10
  let classification :=
    if 50 ≤ score7 then "FRAUDULENT"
    else if 25 ≤ score7 then "SUSPICIOUS"
    else "VALID"
  let is_fraudulent :=
    if 50 ≤ score7 then true
    else if 25 ≤ score7 then false
    else false
  ({ fraud_score := score7, classification := classification,
     is_fraudulent := is_fraudulent, reasons := reasons7,
     breakdown_contact := pre.contact, breakdown_duplicate := pre.duplicate,
     breakdown_geographic := 0, breakdown_timing := 0,
     breakdown_quality := quality }, pre.tracker)

/-- The Batch Refund Result (the dict returned by
`calculate_batch_refund`, lines 252-259). -/
structure BatchRefund where
  refund_type : String
  refund_percentage : ℚ
  fraud_percentage : ℚ
  fraudulent_leads : Nat
  valid_leads : Nat
  total_leads : Nat
  deriving DecidableEq

/-- Python's `/` on numbers, modelled over `ℚ`: raises
`ZeroDivisionError` (with its standard message) on a zero
denominator. -/
def pyDivQ (a b : ℚ) : Except String ℚ :=
  if b = 0 then Except.error "ZeroDivisionError: division by zero"
  else Except.ok (a / b)

/-- `SimpleFraudScorer.calculate_batch_refund` (lines 236-259):
`fraud_percentage = (fraudulent / total) * 100` followed by the refund
tiers.  The unguarded Python division is `pyDivQ`; on a zero-length
batch the `ZeroDivisionError` propagates. -/
def calculate_batch_refund (results : List ScoreResult) : Except String BatchRefund :=
  let total_leads := results.length
  let fraudulent_leads := results.countP (fun r => r.is_fraudulent)
  match pyDivQ (fraudulent_leads : ℚ) (total_leads : ℚ) with
  | Except.error e => Except.error e
  | Except.ok q =>
    let fraud_percentage := q * 100
    if 25 ≤ fraud_percentage then
      Except.ok { refund_type := "FULL REFUND", refund_percentage := 100,
                  fraud_percentage := fraud_percentage,
                  fraudulent_leads := fraudulent_leads,
                  valid_leads := total_leads - fraudulent_leads,
                  total_leads := total_leads }
    else if 15 ≤ fraud_percentage then
      Except.ok { refund_type := "PARTIAL REFUND", refund_percentage := fraud_percentage,
                  fraud_percentage := fraud_percentage,
                  fraudulent_leads := fraudulent_leads,
                  valid_leads := total_leads - fraudulent_leads,
                  total_leads := total_leads }
    else
      Except.ok { refund_type := "NO REFUND", refund_percentage := 0,
                  fraud_percentage := fraud_percentage,
                  fraudulent_leads := fraudulent_leads,
                  valid_leads := total_leads - fraudulent_leads,
                  total_leads := total_leads }

/-- The per-lead duplicate flags of a batch processed in order against
one tracker: `find_exact_duplicate` invoked once per lead, threading the
tracker. -/
def dupFlags (t : Tracker) : List Lead → List Bool
  | [] => []
  | l :: ls =>
    let r := find_exact_duplicate l t
    r.1 :: dupFlags r.2 ls

/-- The per-lead (phoneRepeated, emailRepeated) flags of a batch
processed in order against one tracker: `check_repeated_contact` invoked
once per lead, threading the tracker. -/
def repFlags (t : Tracker) : List Lead → List (Bool × Bool)
  | [] => []
  | l :: ls =>
    let r := check_repeated_contact l t
    r.1 :: repFlags r.2 ls

/-- A lead passing every validation rule (used to instantiate theorems
at concrete data). -/
def cleanLead : Lead := { name := "John Smith", email := "john@example.com", phone := "5551234567" }

/-- A lead with all three critical fields missing. -/
def emptyLead : Lead := { name := "", email := "", phone := "" }

/-- A concrete fraudulent Score Result (as produced for a lead scoring
at least 50). -/
def fraudulentSample : ScoreResult :=
  { fraud_score := 55, classification := "FRAUDULENT", is_fraudulent := true,
    reasons := [], breakdown_contact := 40, breakdown_duplicate := 15,
    breakdown_geographic := 0, breakdown_timing := 0, breakdown_quality := 0 }

/-- A concrete valid Score Result. -/
def validSample : ScoreResult :=
  { fraud_score := 0, classification := "VALID", is_fraudulent := false,
    reasons := [], breakdown_contact := 0, breakdown_duplicate := 0,
    breakdown_geographic := 0, breakdown_timing := 0, breakdown_quality := 0 }

/-- A batch of 10 results of which 2 are fraudulent (the spec's worked
example: fraud percentage 20, PARTIAL refund). -/
def sampleBatch : List ScoreResult :=
  [fraudulentSample, fraudulentSample, validSample, validSample, validSample,
   validSample, validSample, validSample, validSample, validSample]

/-! ## Helper lemmas -/

/-- The flag returned by `find_exact_duplicate` is exactly membership of
the lead's fingerprint in the set of previously recorded
fingerprints. -/
lemma find_exact_duplicate_fst (lead : Lead) (t : Tracker) :
    (find_exact_duplicate lead t).1 = t.seen_hashes.contains (fingerprint lead) := by
  simp only [find_exact_duplicate]
  split <;> simp_all

/-- After `find_exact_duplicate`, the recorded-fingerprint set contains
exactly the old fingerprints plus this lead's fingerprint. -/
lemma find_exact_duplicate_seen (lead : Lead) (t : Tracker) (x : String) :
    ((find_exact_duplicate lead t).2.seen_hashes.contains x) =
      (t.seen_hashes.contains x || (x == fingerprint lead)) := by
  simp only [find_exact_duplicate]
  split
  · rename_i h
    by_cases hx : x = fingerprint lead
    · subst hx; simp_all
    · simp_all
  · rename_i h
    simp only [List.contains_cons]
    exact Bool.or_comm _ _

/-- `find_exact_duplicate` does not touch the contact counters. -/
lemma find_exact_duplicate_phones (lead : Lead) (t : Tracker) :
    (find_exact_duplicate lead t).2.seen_phones = t.seen_phones := by
  simp only [find_exact_duplicate]
  split <;> rfl

/-- `find_exact_duplicate` does not touch the email counters. -/
lemma find_exact_duplicate_emails (lead : Lead) (t : Tracker) :
    (find_exact_duplicate lead t).2.seen_emails = t.seen_emails := by
  simp only [find_exact_duplicate]
  split <;> rfl

/-- `check_repeated_contact` does not touch the fingerprint set. -/
lemma check_repeated_contact_seen_hashes (lead : Lead) (t : Tracker) :
    (check_repeated_contact lead t).2.seen_hashes = t.seen_hashes := rfl

/-- The duplicate flag only depends on the recorded fingerprints. -/
lemma find_exact_duplicate_fst_congr (lead : Lead) (t t' : Tracker)
    (h : t.seen_hashes = t'.seen_hashes) :
    (find_exact_duplicate lead t).1 = (find_exact_duplicate lead t').1 := by
  rw [find_exact_duplicate_fst, find_exact_duplicate_fst, h]

/-! ## Claim theorems -/

/-- C10: the rule predicates are total on empty input and return a
defined value: `validate_phone_format`, `validate_email_format` and
`is_disposable_email` return `false` on the empty string, while
`is_gibberish_name` returns `true` on it. -/
theorem rule_predicates_total_on_empty :
    validate_phone_format "" = false ∧ validate_email_format "" = false ∧
      is_disposable_email "" = false ∧ is_gibberish_name "" = true := by
  decide

/-- C8 counterexample: the lead missing phone, email and name
simultaneously, scored against a fresh tracker, gets a total score of
30, not at least 40: the +10 "Missing critical fields" award is
suppressed because the reason "Missing phone number" already contains
the substring "Missing". -/
theorem all_missing_lead_scores_thirty :
    (score_lead emptyLead Tracker.init).1.fraud_score = 30 ∧
      ¬ 40 ≤ (score_lead emptyLead Tracker.init).1.fraud_score := by
  decide

/-- C8 amended: every lead missing phone, email and name simultaneously,
scored against a fresh tracker, gets a total score of exactly 30 (10 for
missing phone, 10 for missing email, 10 for the gibberish/empty name;
the missing-critical-fields award is suppressed by the reason-string
check) and classification SUSPICIOUS (not fraudulent). -/
theorem all_missing_lead_amended (lead : Lead)
    (hn : lead.name = "") (he : lead.email = "") (hp : lead.phone = "") :
    (score_lead lead Tracker.init).1.fraud_score = 30 ∧
      (score_lead lead Tracker.init).1.classification = "SUSPICIOUS" ∧
      (score_lead lead Tracker.init).1.is_fraudulent = false := by
  obtain ⟨n, e, p⟩ := lead
  simp only at hn he hp
  subst hn he hp
  decide

/-- C8 amended, instantiated at the concrete all-empty lead. -/
theorem all_missing_lead_amended_witness :
    (score_lead emptyLead Tracker.init).1.fraud_score = 30 ∧
      (score_lead emptyLead Tracker.init).1.classification = "SUSPICIOUS" ∧
      (score_lead emptyLead Tracker.init).1.is_fraudulent = false :=
  all_missing_lead_amended emptyLead rfl rfl rfl

/-- The classification and fraud flag returned by `score_lead` are the
threshold function of the (uncapped) `fraud_score` field. -/
lemma score_lead_classification_eq (lead : Lead) (t : Tracker) :
    (score_lead lead t).1.classification =
      (if 50 ≤ (score_lead lead t).1.fraud_score then "FRAUDULENT"
       else if 25 ≤ (score_lead lead t).1.fraud_score then "SUSPICIOUS"
       else "VALID") ∧
    (score_lead lead t).1.is_fraudulent =
      (if 50 ≤ (score_lead lead t).1.fraud_score then true
       else if 25 ≤ (score_lead lead t).1.fraud_score then false
       else false) :=
  ⟨rfl, rfl⟩

/-- C1: `score_lead` classifies by the uncapped running total held in
`fraud_score`: total ≥ 50 → FRAUDULENT and fraudulent; 25 ≤ total < 50 →
SUSPICIOUS and not fraudulent; total < 25 → VALID and not fraudulent
(the capped breakdown values play no role). -/
theorem score_lead_classifies_by_uncapped_total (lead : Lead) (t : Tracker) :
    (50 ≤ (score_lead lead t).1.fraud_score →
      (score_lead lead t).1.classification = "FRAUDULENT" ∧
        (score_lead lead t).1.is_fraudulent = true) ∧
    (25 ≤ (score_lead lead t).1.fraud_score ∧ (score_lead lead t).1.fraud_score < 50 →
      (score_lead lead t).1.classification = "SUSPICIOUS" ∧
        (score_lead lead t).1.is_fraudulent = false) ∧
    ((score_lead lead t).1.fraud_score < 25 →
      (score_lead lead t).1.classification = "VALID" ∧
        (score_lead lead t).1.is_fraudulent = false) := by
  obtain ⟨hc, hf⟩ := score_lead_classification_eq lead t
  rw [hc, hf]
  refine ⟨fun h => ?_, fun h => ?_, fun h => ?_⟩ <;> split_ifs <;>
    first
    | exact ⟨rfl, rfl⟩
    | omega

/-- C1 instantiated: the all-missing lead scores 30, which lies in the
SUSPICIOUS band. -/
theorem score_lead_classifies_by_uncapped_total_witness :
    (25 ≤ (score_lead emptyLead Tracker.init).1.fraud_score ∧
        (score_lead emptyLead Tracker.init).1.fraud_score < 50) ∧
      ((score_lead emptyLead Tracker.init).1.classification = "SUSPICIOUS" ∧
        (score_lead emptyLead Tracker.init).1.is_fraudulent = false) :=
  ⟨by decide, (score_lead_classifies_by_uncapped_total emptyLead Tracker.init).2.1 (by decide)⟩

/-- C6: every Score Result respects the per-category breakdown caps
(contact ≤ 40, duplicate ≤ 25, quality ≤ 10), while `fraud_score` is the
uncapped running total: for some lead it strictly exceeds the sum of the
capped breakdown values. -/
theorem breakdown_caps_and_uncapped_total :
    (∀ (lead : Lead) (t : Tracker),
      (score_lead lead t).1.breakdown_contact ≤ 40 ∧
        (score_lead lead t).1.breakdown_duplicate ≤ 25 ∧
        (score_lead lead t).1.breakdown_quality ≤ 10) ∧
    ∃ (lead : Lead) (t : Tracker),
      (score_lead lead t).1.breakdown_contact + (score_lead lead t).1.breakdown_duplicate +
          (score_lead lead t).1.breakdown_quality <
        (score_lead lead t).1.fraud_score := by
  constructor
  · intro lead t
    exact ⟨Nat.min_le_right _ _, Nat.min_le_right _ _, Nat.min_le_right _ _⟩
  · exact ⟨{ name := "", email := "john@example.com", phone := "5551234567" },
      Tracker.init, by decide⟩

/-- Membership is preserved under a conditional append of one fresh
element. -/
lemma not_mem_ite_append {α : Type} (x y : α) (l : List α) (c : Prop) [Decidable c]
    (hl : x ∉ l) (hy : x ≠ y) : x ∉ (if c then l ++ [y] else l) := by
  split_ifs
  · simp [List.mem_append, hl, hy]
  · exact hl

/-- The string "Missing critical fields" is never among the reasons
collected before the missing-critical-fields check itself. -/
lemma missing_critical_not_in_pre (lead : Lead) (t : Tracker) :
    "Missing critical fields" ∉ (score_lead_preMissing lead t).reasons := by
  simp only [score_lead_preMissing]
  refine not_mem_ite_append _ _ _ _
    (not_mem_ite_append _ _ _ _
      (not_mem_ite_append _ _ _ _
        (not_mem_ite_append _ _ _ _ ?_ (by decide)) (by decide)) (by decide)) (by decide)
  split_ifs <;> decide

/-- C7: in the quality step, the +10 "Missing critical fields" award is
made if and only if at least one of name, email, phone is missing and no
reason string collected earlier in the same call contains the substring
"Missing"; the check inspects only the record's own previously collected
reason strings. -/
theorem missing_fields_award_iff (lead : Lead) (t : Tracker) :
    ("Missing critical fields" ∈ (score_lead lead t).1.reasons ↔
      ((lead.name = "" ∨ lead.email = "" ∨ lead.phone = "") ∧
        pyContains (joinSpace (score_lead_preMissing lead t).reasons) "Missing" = false)) ∧
    (score_lead lead t).1.fraud_score =
      (if (lead.name = "" ∨ lead.email = "" ∨ lead.phone = "") ∧
          pyContains (joinSpace (score_lead_preMissing lead t).reasons) "Missing" = false
       then (score_lead_preMissing lead t).score + 10
       else (score_lead_preMissing lead t).score) := by
  have hnot := missing_critical_not_in_pre lead t
  have hreq : (score_lead lead t).1.reasons =
      (if (lead.name = "" ∨ lead.email = "" ∨ lead.phone = "") ∧
          pyContains (joinSpace (score_lead_preMissing lead t).reasons) "Missing" = false
       then (score_lead_preMissing lead t).reasons ++ ["Missing critical fields"]
       else (score_lead_preMissing lead t).reasons) := rfl
  refine ⟨?_, rfl⟩
  rw [hreq]
  split_ifs with hcond
  · simp [hcond]
  · simp [hcond, hnot]

/-- C3: a lead with a present, format-valid phone, a present,
format-valid, non-disposable email, a present non-gibberish name, and
for which the tracker reports no repeated-phone flag, no repeated-email
flag, and no duplicate fingerprint, scores 0 and is classified VALID. -/
theorem clean_lead_scores_zero (lead : Lead) (t : Tracker)
    (hp : lead.phone ≠ "") (hpv : validate_phone_format lead.phone = true)
    (he : lead.email ≠ "") (hev : validate_email_format lead.email = true)
    (hed : is_disposable_email lead.email = false)
    (hn : lead.name ≠ "") (hng : is_gibberish_name lead.name = false)
    (hrp : (check_repeated_contact lead t).1.1 = false)
    (hre : (check_repeated_contact lead t).1.2 = false)
    (hdup : (find_exact_duplicate lead t).1 = false) :
    (score_lead lead t).1.fraud_score = 0 ∧
      (score_lead lead t).1.classification = "VALID" := by
  have hdup2 : (find_exact_duplicate lead (check_repeated_contact lead t).2).1 = false :=
    (find_exact_duplicate_fst_congr lead _ t
      (check_repeated_contact_seen_hashes lead t)).trans hdup
  simp only [score_lead, score_lead_preMissing]
  simp [hp, hpv, he, hev, hed, hn, hng, hrp, hre, hdup2]

/-- C3 instantiated at a concrete clean lead against a fresh tracker. -/
theorem clean_lead_scores_zero_witness :
    (score_lead cleanLead Tracker.init).1.fraud_score = 0 ∧
      (score_lead cleanLead Tracker.init).1.classification = "VALID" :=
  clean_lead_scores_zero cleanLead Tracker.init (by decide) (by decide) (by decide)
    (by decide) (by decide) (by decide) (by decide) (by decide) (by decide) (by decide)

/-- C9: applying `calculate_batch_refund` to a zero-length batch fails
fast with Python's explicit, descriptive `ZeroDivisionError` (no refund
result, no NaN, no silent success); every non-empty batch succeeds. -/
theorem empty_batch_division_fails :
    calculate_batch_refund [] = Except.error "ZeroDivisionError: division by zero" ∧
      ∀ results : List ScoreResult, results ≠ [] →
        ∃ b, calculate_batch_refund results = Except.ok b := by
  constructor
  · rfl
  · intro results h
    have hl : results.length ≠ 0 := fun hh => h (List.length_eq_zero.mp hh)
    have hN : ((results.length : ℚ)) ≠ 0 := Nat.cast_ne_zero.mpr hl
    simp only [calculate_batch_refund, pyDivQ, if_neg hN]
    split_ifs <;> exact ⟨_, rfl⟩

/-- C9 instantiated: a singleton batch aggregates successfully. -/
theorem empty_batch_division_fails_witness :
    [validSample] ≠ ([] : List ScoreResult) ∧
      ∃ b, calculate_batch_refund [validSample] = Except.ok b :=
  ⟨List.cons_ne_nil _ _, empty_batch_division_fails.2 [validSample] (List.cons_ne_nil _ _)⟩

/-- C2: for a non-empty batch, `calculate_batch_refund` computes
`fraud_percentage = 100 * fraudulentCount / totalCount` and maps it onto
the refund tiers: ≥ 25 → FULL refund at 100; 15 ≤ _ < 25 → PARTIAL
refund at the fraud percentage itself; < 15 → NO refund at 0. -/
theorem calculate_batch_refund_tiers (results : List ScoreResult) (h : results ≠ []) :
    calculate_batch_refund results = Except.ok
      { refund_type :=
          if 25 ≤ 100 * (results.countP (fun r => r.is_fraudulent) : ℚ) / (results.length : ℚ)
          then "FULL REFUND"
          else if 15 ≤ 100 * (results.countP (fun r => r.is_fraudulent) : ℚ) / (results.length : ℚ)
          then "PARTIAL REFUND"
          else "NO REFUND",
        refund_percentage :=
          if 25 ≤ 100 * (results.countP (fun r => r.is_fraudulent) : ℚ) / (results.length : ℚ)
          then 100
          else if 15 ≤ 100 * (results.countP (fun r => r.is_fraudulent) : ℚ) / (results.length : ℚ)
          then 100 * (results.countP (fun r => r.is_fraudulent) : ℚ) / (results.length : ℚ)
          else 0,
        fraud_percentage := 100 * (results.countP (fun r => r.is_fraudulent) : ℚ) / (results.length : ℚ),
        fraudulent_leads := results.countP (fun r => r.is_fraudulent),
        valid_leads := results.length - results.countP (fun r => r.is_fraudulent),
        total_leads := results.length } := by
  have hl : results.length ≠ 0 := fun hh => h (List.length_eq_zero.mp hh)
  have hN : ((results.length : ℚ)) ≠ 0 := Nat.cast_ne_zero.mpr hl
  have key : (results.countP (fun r => r.is_fraudulent) : ℚ) / (results.length : ℚ) * 100
      = 100 * (results.countP (fun r => r.is_fraudulent) : ℚ) / (results.length : ℚ) := by ring
  simp only [calculate_batch_refund, pyDivQ, if_neg hN]
  rw [key]
  split_ifs <;> rfl

/-- C2 instantiated at the spec's worked example: a batch of 10 results
with 2 fraudulent. -/
theorem calculate_batch_refund_tiers_witness :
    calculate_batch_refund sampleBatch = Except.ok
      { refund_type :=
          if 25 ≤ 100 * (sampleBatch.countP (fun r => r.is_fraudulent) : ℚ) / (sampleBatch.length : ℚ)
          then "FULL REFUND"
          else if 15 ≤ 100 * (sampleBatch.countP (fun r => r.is_fraudulent) : ℚ) / (sampleBatch.length : ℚ)
          then "PARTIAL REFUND"
          else "NO REFUND",
        refund_percentage :=
          if 25 ≤ 100 * (sampleBatch.countP (fun r => r.is_fraudulent) : ℚ) / (sampleBatch.length : ℚ)
          then 100
          else if 15 ≤ 100 * (sampleBatch.countP (fun r => r.is_fraudulent) : ℚ) / (sampleBatch.length : ℚ)
          then 100 * (sampleBatch.countP (fun r => r.is_fraudulent) : ℚ) / (sampleBatch.length : ℚ)
          else 0,
        fraud_percentage := 100 * (sampleBatch.countP (fun r => r.is_fraudulent) : ℚ) / (sampleBatch.length : ℚ),
        fraudulent_leads := sampleBatch.countP (fun r => r.is_fraudulent),
        valid_leads := sampleBatch.length - sampleBatch.countP (fun r => r.is_fraudulent),
        total_leads := sampleBatch.length } :=
  calculate_batch_refund_tiers sampleBatch (List.cons_ne_nil _ _)

/-- The duplicate flag of lead `k` in a batch, relative to an arbitrary
starting tracker: fingerprint already recorded, or fingerprint of an
earlier lead of the batch. -/
lemma dupFlags_getD (leads : List Lead) : ∀ (t : Tracker) (k : Nat), k < leads.length →
    (dupFlags t leads).getD k false =
      (t.seen_hashes.contains (fingerprint (leads.getD k default)) ||
        ((leads.take k).map fingerprint).contains (fingerprint (leads.getD k default))) := by
  induction leads with
  | nil => intro t k hk; exact absurd hk (Nat.not_lt_zero k)
  | cons l ls ih =>
    intro t k hk
    cases k with
    | zero =>
      simp only [dupFlags, List.getD_cons_zero, List.take_zero, List.map_nil]
      rw [find_exact_duplicate_fst]
      simp
    | succ k =>
      simp only [dupFlags, List.getD_cons_succ, List.take_succ_cons, List.map_cons]
      rw [ih _ k (Nat.lt_of_succ_lt_succ hk), find_exact_duplicate_seen]
      simp [List.contains_cons, Bool.beq_eq_decide_eq, Bool.or_assoc, Bool.or_comm,
        Bool.or_left_comm]

/-- C4: against one tracker, a lead's hash is always in the set after
the call, and lead `k` of a batch processed in order from a fresh
tracker is flagged as an exact duplicate iff its fingerprint
`name|email|phone` equals the fingerprint of some earlier lead of the
batch (so a first occurrence is never flagged and every subsequent
identical occurrence is). -/
theorem duplicate_flag_iff_earlier_fingerprint :
    (∀ (lead : Lead) (t : Tracker),
      ((find_exact_duplicate lead t).2.seen_hashes.contains (fingerprint lead)) = true) ∧
    ∀ (leads : List Lead) (k : Nat), k < leads.length →
      (dupFlags Tracker.init leads).getD k false =
        ((leads.take k).map fingerprint).contains (fingerprint (leads.getD k default)) := by
  constructor
  · intro lead t
    rw [find_exact_duplicate_seen]
    simp
  · intro leads k hk
    rw [dupFlags_getD leads Tracker.init k hk]
    simp [Tracker.init]

/-- C4 instantiated: in the batch `[cleanLead, emptyLead, cleanLead]`
the third lead repeats the first fingerprint and is flagged. -/
theorem duplicate_flag_iff_earlier_fingerprint_witness :
    2 < ([cleanLead, emptyLead, cleanLead] : List Lead).length ∧
      (dupFlags Tracker.init [cleanLead, emptyLead, cleanLead]).getD 2 false =
        (([cleanLead, emptyLead, cleanLead].take 2).map fingerprint).contains
          (fingerprint (([cleanLead, emptyLead, cleanLead] : List Lead).getD 2 default)) :=
  ⟨by decide,
    duplicate_flag_iff_earlier_fingerprint.2 [cleanLead, emptyLead, cleanLead] 2 (by decide)⟩

/-- The flags returned by `check_repeated_contact` compare the
already-incremented counters against 3. -/
lemma check_repeated_contact_fst (lead : Lead) (t : Tracker) :
    (check_repeated_contact lead t).1 =
      (decide (3 ≤ t.seen_phones lead.phone + 1),
       decide (3 ≤ t.seen_emails lead.email + 1)) := by
  simp [check_repeated_contact]

/-- `check_repeated_contact` increments exactly the lead's phone
counter. -/
lemma check_repeated_contact_phones (lead : Lead) (t : Tracker) (x : String) :
    (check_repeated_contact lead t).2.seen_phones x =
      t.seen_phones x + (if lead.phone = x then 1 else 0) := by
  simp only [check_repeated_contact]
  by_cases h : x = lead.phone
  · simp [h]
  · simp [h, Ne.symm h]

/-- `check_repeated_contact` increments exactly the lead's email
counter. -/
lemma check_repeated_contact_emails (lead : Lead) (t : Tracker) (x : String) :
    (check_repeated_contact lead t).2.seen_emails x =
      t.seen_emails x + (if lead.email = x then 1 else 0) := by
  simp only [check_repeated_contact]
  by_cases h : x = lead.email
  · simp [h]
  · simp [h, Ne.symm h]

/-- The repeat flags of lead `k` in a batch, relative to an arbitrary
starting tracker: the starting count plus the occurrences among the
first `k+1` leads, compared against 3. -/
lemma repFlags_getD (leads : List Lead) : ∀ (t : Tracker) (k : Nat), k < leads.length →
    (repFlags t leads).getD k (false, false) =
      (decide (3 ≤ t.seen_phones ((leads.getD k default).phone) +
          (((leads.take (k + 1)).map (fun l => l.phone)).count ((leads.getD k default).phone))),
       decide (3 ≤ t.seen_emails ((leads.getD k default).email) +
          (((leads.take (k + 1)).map (fun l => l.email)).count ((leads.getD k default).email)))) := by
  induction leads with
  | nil => intro t k hk; exact absurd hk (Nat.not_lt_zero k)
  | cons l ls ih =>
    intro t k hk
    cases k with
    | zero =>
      simp only [repFlags, List.getD_cons_zero, List.take_succ_cons, List.take_zero,
        List.map_cons, List.map_nil, List.count_cons, List.count_nil]
      rw [check_repeated_contact_fst]
      simp
    | succ k =>
      simp only [repFlags, List.getD_cons_succ, List.take_succ_cons, List.map_cons,
        List.count_cons]
      rw [ih _ k (Nat.lt_of_succ_lt_succ hk)]
      have hp := check_repeated_contact_phones l t ((ls.getD k default).phone)
      have he := check_repeated_contact_emails l t ((ls.getD k default).email)
      rw [hp, he]
      simp [Nat.add_comm, Nat.add_assoc, Nat.add_left_comm]

/-- C5: `check_repeated_contact` first increments both counters for the
lead's phone and email values and then flags each one iff the
incremented counter is ≥ 3; consequently, lead `k` of a batch processed
in order from a fresh tracker has its phone (resp. email) flagged iff
that value occurs at least 3 times among the first `k+1` leads — the
third occurrence is the first one flagged, and all later occurrences
stay flagged. -/
theorem repeated_contact_flags_from_third :
    (∀ (lead : Lead) (t : Tracker),
      (check_repeated_contact lead t).1 =
        (decide (3 ≤ t.seen_phones lead.phone + 1),
         decide (3 ≤ t.seen_emails lead.email + 1)) ∧
      (check_repeated_contact lead t).2.seen_phones lead.phone = t.seen_phones lead.phone + 1 ∧
      (check_repeated_contact lead t).2.seen_emails lead.email = t.seen_emails lead.email + 1) ∧
    ∀ (leads : List Lead) (k : Nat), k < leads.length →
      (repFlags Tracker.init leads).getD k (false, false) =
        (decide (3 ≤ (((leads.take (k + 1)).map (fun l => l.phone)).count
            ((leads.getD k default).phone))),
         decide (3 ≤ (((leads.take (k + 1)).map (fun l => l.email)).count
            ((leads.getD k default).email)))) := by
  constructor
  · intro lead t
    refine ⟨check_repeated_contact_fst lead t, ?_, ?_⟩
    · rw [check_repeated_contact_phones]; simp
    · rw [check_repeated_contact_emails]; simp
  · intro leads k hk
    rw [repFlags_getD leads Tracker.init k hk]
    simp [Tracker.init]

/-- C5 instantiated: three identical leads — the third occurrence is
flagged for both phone and email. -/
theorem repeated_contact_flags_from_third_witness :
    2 < ([cleanLead, cleanLead, cleanLead] : List Lead).length ∧
      (repFlags Tracker.init [cleanLead, cleanLead, cleanLead]).getD 2 (false, false) =
        (decide (3 ≤ ((([cleanLead, cleanLead, cleanLead] : List Lead).take 3).map
            (fun l => l.phone)).count ((([cleanLead, cleanLead, cleanLead] : List Lead).getD 2 default).phone)),
         decide (3 ≤ ((([cleanLead, cleanLead, cleanLead] : List Lead).take 3).map
            (fun l => l.email)).count ((([cleanLead, cleanLead, cleanLead] : List Lead).getD 2 default).email))) :=
  ⟨by decide,
    repeated_contact_flags_from_third.2 [cleanLead, cleanLead, cleanLead] 2 (by decide)⟩

end LeadValidation
